import Mathlib

/-!
Verification of the accounts-payable ledger (`app.py`).

Shallow embedding conventions:
* A calendar date is modelled as its day ordinal (a `Nat`); the day
  difference used by `calcular_dias` is then integer subtraction.  The
  CSV text of a date is modelled as the decimal numeral of that ordinal
  (the mapping ISO-date-string <-> day-ordinal is a bijection, and the
  decimal numeral preserves it), built from `Nat.digits`.
* An in-memory table (`pandas.DataFrame`) is a `List Row`.  After
  `carregar_dados`, and for every table the app builds (form input,
  data-editor edits), the `vencimento` column is date-typed: `Option Nat`
  with `none` for `NaT`.  The `fornecedor` cell may be missing (`NaN`
  in pandas), hence `Option String`.
* The persisted CSV is a `List StoredRow` whose text cells are plain
  strings; the empty string stands for an empty CSV field, which
  `pandas.read_csv` reads back as `NaN`.
* Fallible parsing (`pd.to_datetime(..., errors="coerce")`) returns
  `Option`; it never raises, matching the source.
* Streamlit messages (`st.warning` / `st.success`) are modelled by the
  `UiMsg` type; a click handler returns the new in-memory table, the
  newly persisted table (`none` when nothing was written), and the
  message shown.
-/

namespace Contas

/-- One in-memory row of the ledger, with the canonical column schema
`id, fornecedor, descricao, tipo_documento, valor, vencimento, status`.
`vencimento` is date-typed (`none` = `NaT`), `fornecedor` may be missing
(`none` = `NaN`), `valor` is the exact decimal amount. -/
structure Row where
  id : Int
  fornecedor : Option String
  descricao : String
  tipo_documento : String
  valor : ℚ
  vencimento : Option Nat
  status : String
deriving DecidableEq, Repr

/-- One persisted CSV row; `fornecedor` and `vencimento` are the raw cell
texts (`""` = empty field, read back as `NaN` by `pandas.read_csv`). -/
structure StoredRow where
  id : Int
  fornecedor : String
  descricao : String
  tipo_documento : String
  valor : ℚ
  vencimento : String
  status : String
deriving DecidableEq, Repr

/-! ### Date-cell serialization (the CSV text of a `datetime64` column) -/

/-- Read one character as a decimal digit, `none` if it is not one. -/
def charDigit? (c : Char) : Option Nat :=
  if '0' ≤ c ∧ c ≤ '9' then some (c.toNat - '0'.toNat) else none

/-- The decimal character of a digit. -/
def digitChar (d : Nat) : Char := Char.ofNat (48 + d)

/-- Little-endian base-10 digits of `n`, computed with explicit fuel so
that the definition is structural and evaluates by kernel reduction. -/
def toDigitsAux : Nat → Nat → List Nat
  | 0, _ => []
  | _ + 1, 0 => []
  | fuel + 1, n + 1 => ((n + 1) % 10) :: toDigitsAux fuel ((n + 1) / 10)

/-- Little-endian base-10 digits of `n` (executable). -/
def natDigits (n : Nat) : List Nat := toDigitsAux n n

/-- The CSV text of a date (the decimal numeral of its day ordinal,
standing in for the ISO date string `pandas.to_csv` writes). -/
def formatDate (n : Nat) : String :=
  if n = 0 then "0" else ⟨((natDigits n).map digitChar).reverse⟩

/-- `pd.to_datetime(s, errors="coerce")` on one nonempty text cell:
`some` day ordinal when the text is a well-formed date, `none` (`NaT`)
otherwise — it never raises. -/
def parseDate (s : String) : Option Nat :=
  match s.toList.mapM charDigit? with
  | none => none
  | some [] => none
  | some ds => some (Nat.ofDigits 10 ds.reverse)

/-- Parse one raw `vencimento` CSV cell: an empty field is `NaN`, which
`to_datetime` turns into `NaT`; nonempty text is parsed with coercion. -/
def parseCell (s : String) : Option Nat :=
  if s = "" then none else parseDate s

/-- Write one date value back to CSV text (`NaT` becomes an empty field). -/
def writeDateCell : Option Nat → String
  | none => ""
  | some n => formatDate n

/-- Write one `fornecedor` value back to CSV text (`NaN` → empty field). -/
def writeStrCell : Option String → String
  | none => ""
  | some s => s

/-- Read one raw `fornecedor` CSV cell (empty field → `NaN`). -/
def readStrCell (s : String) : Option String :=
  if s = "" then none else some s

/-! ### Record Store: `carregar_dados` / `remover_linhas_vazias` / `salvar_dados` -/

/-- Decode one persisted row (`pd.read_csv` plus the
`df["vencimento"] = pd.to_datetime(df["vencimento"], errors="coerce")`
line of `carregar_dados`). -/
def readRow (sr : StoredRow) : Row :=
  { id := sr.id
    fornecedor := readStrCell sr.fornecedor
    descricao := sr.descricao
    tipo_documento := sr.tipo_documento
    valor := sr.valor
    vencimento := parseCell sr.vencimento
    status := sr.status }

/-- Encode one row for `to_csv`. -/
def writeRow (r : Row) : StoredRow :=
  { id := r.id
    fornecedor := writeStrCell r.fornecedor
    descricao := r.descricao
    tipo_documento := r.tipo_documento
    valor := r.valor
    vencimento := writeDateCell r.vencimento
    status := r.status }

/-- `carregar_dados` on a persisted table.  The first-run branch (file
absent) and the `df.empty` branch both return the empty table, which the
list model subsumes (`carregar_dados [] = []`); otherwise every stored
row is kept and its `vencimento` parsed with coercion. -/
def carregar_dados (stored : List StoredRow) : List Row :=
  stored.map readRow

/-- Python `str.strip()`: drop whitespace from both ends.  (Defined on
the character list so that it evaluates by kernel reduction.) -/
def pyStrip (s : String) : String :=
  ⟨((s.toList.dropWhile Char.isWhitespace).reverse.dropWhile Char.isWhitespace).reverse⟩

/-- The row-keeping test of `remover_linhas_vazias`:
`df["fornecedor"].notna() & (df["fornecedor"].astype(str).str.strip() != "")`. -/
def fornecedorPreenchido (r : Row) : Bool :=
  match r.fornecedor with
  | none => false
  | some s => pyStrip s != ""

/-- `remover_linhas_vazias`: keep only rows with a non-blank supplier.
(The Python `df.copy()` is heap behaviour, modelled separately below.) -/
def remover_linhas_vazias (df : List Row) : List Row :=
  df.filter fornecedorPreenchido

/-- The `pd.to_datetime(df_salvar["vencimento"], errors="coerce")` line of
`salvar_dados`: on an already date-typed column (`NaT`-or-date, which is
what every in-memory table holds) the coercion is the identity. -/
def to_datetime_col (v : Option Nat) : Option Nat := v

/-- `salvar_dados`: drop blank-supplier rows, re-normalize `vencimento`,
overwrite the whole persisted table. -/
def salvar_dados (df : List Row) : List StoredRow :=
  let df_salvar := remover_linhas_vazias df
  let df_salvar := df_salvar.map fun r => { r with vencimento := to_datetime_col r.vencimento }
  df_salvar.map writeRow

/-! ### Status Engine: `calcular_dias` / `definir_status_atual` -/

/-- `calcular_dias`: `None` when `pd.isna(vencimento)`, else the signed
day difference `(vencimento.date() - hoje).days`.  The source reads
`datetime.today()` inside the function; `hoje` is passed explicitly. -/
def calcular_dias (hoje : Nat) (vencimento : Option Nat) : Option Int :=
  match vencimento with
  | none => none
  | some v => some ((v : Int) - (hoje : Int))

/-- `definir_status_atual`: `"Paga"` short-circuits on stored status,
then `"Sem data"` / `"Vencida"` / `"A vencer"` by remaining days. -/
def definir_status_atual (hoje : Nat) (row : Row) : String :=
  if row.status = "Paga" then "Paga"
  else
    match calcular_dias hoje row.vencimento with
    | none => "Sem data"
    | some dias => if dias < 0 then "Vencida" else "A vencer"

/-! ### Application layer: display pipeline, total, delete, create -/

/-- A user-visible streamlit message. -/
inductive UiMsg where
  | warning (text : String)
  | success (text : String)
deriving DecidableEq, Repr

/-- The `df.sort_values("vencimento")` comparison: ascending due date,
`NaT` sorted last (pandas default `na_position="last"`). -/
def vencimentoLE (a b : Row) : Bool :=
  match a.vencimento, b.vencimento with
  | none, none => true
  | none, some _ => false
  | some _, none => true
  | some x, some y => x ≤ y

/-- `df.sort_values("vencimento")`. -/
def sort_values_vencimento (df : List Row) : List Row :=
  df.mergeSort vencimentoLE

/-- The dynamic-status block (app lines 82–85): when the table is
nonempty, the `status_atual` and `dias` columns are added (they are new
columns — `definir_status_atual` / `calcular_dias` above — and leave the
canonical fields untouched) and the table is sorted by due date. -/
def df_exibicao (df : List Row) : List Row :=
  if df ≠ [] then sort_values_vencimento df else df

/-- `total_a_pagar` (app lines 88–91), computed on the displayed table:
`df[df["status"] == "Pendente"]["valor"].sum() if not df.empty else 0`. -/
def total_a_pagar (df0 : List Row) : ℚ :=
  let df := df_exibicao df0
  if df ≠ [] then ((df.filter fun r => r.status == "Pendente").map Row.valor).sum
  else 0

/-- `novo_id` (app line 198): `int(df["id"].max() + 1) if not df.empty else 1`.
`series_max` below is `pandas.Series.max` on the nonempty id column. -/
def series_max : List Int → Int
  | [] => 0
  | x :: xs => xs.foldl max x

/-- Next id for a created record. -/
def novo_id (df : List Row) : Int :=
  if df ≠ [] then series_max (df.map Row.id) + 1 else 1

/-- The delete-button handler (app lines 147–154).  Returns the
in-memory table after the click, the table newly written to storage
(`none` when nothing was saved), and the message shown. -/
def conta_excluir_click (df : List Row) (conta_excluir : Int) :
    List Row × Option (List StoredRow) × UiMsg :=
  if !((df.map Row.id).contains conta_excluir) then
    (df, none, UiMsg.warning "❌ Conta não encontrada.")
  else
    let df2 := df.filter fun r => r.id != conta_excluir
    (df2, some (salvar_dados df2), UiMsg.success "✅ Conta excluída com sucesso!")

/-- The new-account form submit handler (app lines 194–217). -/
def form_nova_conta_submit (df : List Row) (fornecedor descricao tipo_documento : String)
    (valor : ℚ) (vencimento : Nat) : List Row × Option (List StoredRow) × UiMsg :=
  if pyStrip fornecedor = "" then
    (df, none, UiMsg.warning "Informe o fornecedor.")
  else
    let nid := novo_id df
    let nova_linha : Row :=
      ⟨nid, some fornecedor, descricao, tipo_documento, valor, some vencimento, "Pendente"⟩
    let df2 := df ++ [nova_linha]
    (df2, some (salvar_dados df2), UiMsg.success "Conta cadastrada com sucesso!")

end Contas

namespace Contas

/-- C1: for every record and every value of today, the derived status is
`"Paga"` exactly when the stored status is `"Paga"`, whatever the due
date (null, past, today, or far future). -/
theorem current_status_paga_iff (hoje : Nat) (r : Row) :
    definir_status_atual hoje r = "Paga" ↔ r.status = "Paga" := by
  unfold definir_status_atual
  by_cases h : r.status = "Paga"
  · simp [h]
  · simp only [if_neg h]
    constructor
    · intro hc
      exfalso
      cases hv : calcular_dias hoje r.vencimento with
      | none => simp [hv] at hc
      | some d =>
        simp only [hv] at hc
        by_cases hd : d < 0 <;> simp [hd] at hc
    · intro hc; exact absurd hc h

/-- C2: for a record whose stored status is not `"Paga"`: a null due date
gives `"Sem data"`; with a due date, the status is `"Vencida"` exactly
when the remaining days are negative and `"A vencer"` exactly when they
are ≥ 0 (so a record due today, 0 days, is `"A vencer"`). -/
theorem current_status_nonpaga (hoje : Nat) (r : Row) (h : r.status ≠ "Paga") :
    (r.vencimento = none → definir_status_atual hoje r = "Sem data")
    ∧ ∀ d : Int, calcular_dias hoje r.vencimento = some d →
        (definir_status_atual hoje r = "Vencida" ↔ d < 0)
        ∧ (definir_status_atual hoje r = "A vencer" ↔ 0 ≤ d) := by
  constructor
  · intro hv
    unfold definir_status_atual
    simp [h, calcular_dias, hv]
  · intro d hd
    unfold definir_status_atual
    simp only [if_neg h, hd]
    by_cases hlt : d < 0
    · simp [hlt]
    · simp [hlt, not_lt.mp hlt]

/-- Reading back the decimal character of a digit recovers the digit. -/
lemma charDigit_digitChar (d : Nat) (hd : d < 10) :
    charDigit? (digitChar d) = some d := by
  interval_cases d <;> decide

/-- Parsing a list of digit characters recovers the digits. -/
lemma mapM_charDigit_map (l : List Nat) (hl : ∀ d ∈ l, d < 10) :
    (l.map digitChar).mapM charDigit? = some l := by
  rw [← List.mapM'_eq_mapM]
  induction l with
  | nil => rfl
  | cons d ds ih =>
    have hd : d < 10 := hl d (List.mem_cons_self d ds)
    have hds : ∀ x ∈ ds, x < 10 := fun x hx => hl x (List.mem_cons_of_mem d hx)
    simp [List.mapM'_cons, charDigit_digitChar d hd, ih hds]

/-- The fueled digit function agrees with `Nat.digits 10` once the fuel
covers the argument. -/
lemma toDigitsAux_eq_digits (fuel : Nat) :
    ∀ n : Nat, n ≤ fuel → toDigitsAux fuel n = Nat.digits 10 n := by
  induction fuel with
  | zero =>
    intro n hn
    interval_cases n
    simp [toDigitsAux, Nat.digits_zero]
  | succ f ih =>
    intro n hn
    cases n with
    | zero => simp [toDigitsAux, Nat.digits_zero]
    | succ m =>
      have hdiv : (m + 1) / 10 ≤ f := by
        have h1 : (m + 1) / 10 < m + 1 := Nat.div_lt_self (Nat.succ_pos m) (by norm_num)
        omega
      rw [toDigitsAux, ih _ hdiv,
        Nat.digits_def' (by norm_num : (1 : ℕ) < 10) (Nat.succ_pos m)]

/-- The executable digits agree with `Nat.digits 10`. -/
lemma natDigits_eq_digits (n : Nat) : natDigits n = Nat.digits 10 n :=
  toDigitsAux_eq_digits n n le_rfl

/-- The CSV text of a date is never an empty field. -/
lemma formatDate_ne_empty (n : Nat) : formatDate n ≠ "" := by
  unfold formatDate
  by_cases h : n = 0
  · simp [h]
  · rw [if_neg h]
    intro hcontra
    have hdata : ((natDigits n).map digitChar).reverse = [] :=
      congrArg String.toList hcontra
    rw [List.reverse_eq_nil_iff, List.map_eq_nil_iff, natDigits_eq_digits] at hdata
    exact (Nat.digits_ne_nil_iff_ne_zero.mpr h) hdata

/-- Parsing the CSV text of a date recovers the date. -/
lemma parseDate_formatDate (n : Nat) : parseDate (formatDate n) = some n := by
  by_cases h : n = 0
  · subst h; decide
  · have hform : formatDate n = ⟨((Nat.digits 10 n).map digitChar).reverse⟩ := by
      rw [formatDate, if_neg h, natDigits_eq_digits]
    have hlist : (formatDate n).toList = ((Nat.digits 10 n).reverse).map digitChar := by
      rw [hform]
      show ((Nat.digits 10 n).map digitChar).reverse = _
      rw [List.map_reverse]
    have hmapM : (formatDate n).toList.mapM charDigit? = some ((Nat.digits 10 n).reverse) := by
      rw [hlist]
      exact mapM_charDigit_map _ fun d hd =>
        Nat.digits_lt_base (by norm_num) (List.mem_reverse.mp hd)
    have hne : (Nat.digits 10 n).reverse ≠ [] := by
      simp [List.reverse_eq_nil_iff, Nat.digits_ne_nil_iff_ne_zero, h]
    unfold parseDate
    rw [hmapM]
    cases hrev : (Nat.digits 10 n).reverse with
    | nil => exact absurd hrev hne
    | cons d ds =>
      show some (Nat.ofDigits 10 (d :: ds).reverse) = some n
      rw [← hrev, List.reverse_reverse, Nat.ofDigits_digits]

/-- A row surviving the blank-supplier filter decodes, after encoding,
back to itself. -/
lemma readRow_writeRow (r : Row) (h : fornecedorPreenchido r = true) :
    readRow (writeRow r) = r := by
  unfold fornecedorPreenchido at h
  cases hf : r.fornecedor with
  | none => rw [hf] at h; simp at h
  | some s =>
    rw [hf] at h
    have hs : s ≠ "" := by
      intro hcontra
      rw [hcontra] at h
      exact absurd h (by decide)
    unfold readRow writeRow writeStrCell readStrCell
    cases hv : r.vencimento with
    | none =>
      simp only [hf, hv, writeDateCell, parseCell, if_pos rfl, if_neg hs]
      cases r
      simp_all
    | some n =>
      have hne : formatDate n ≠ "" := formatDate_ne_empty n
      simp only [hf, hv, writeDateCell, parseCell, if_neg hne, if_neg hs,
        parseDate_formatDate]
      cases r
      simp_all

/-- Loading right after saving gives exactly the filtered table. -/
lemma load_save_eq (T : List Row) :
    carregar_dados (salvar_dados T) = remover_linhas_vazias T := by
  unfold carregar_dados salvar_dados
  show ((((remover_linhas_vazias T).map
      fun r => { r with vencimento := to_datetime_col r.vencimento }).map writeRow).map readRow)
      = remover_linhas_vazias T
  have hupd : ((remover_linhas_vazias T).map
      fun r => { r with vencimento := to_datetime_col r.vencimento })
      = remover_linhas_vazias T := by
    conv_rhs => rw [← List.map_id (remover_linhas_vazias T)]
    apply List.map_congr_left
    intro r _
    rfl
  rw [hupd, List.map_map]
  have : ∀ r ∈ remover_linhas_vazias T, (readRow ∘ writeRow) r = id r := by
    intro r hr
    have hmem := List.mem_filter.mp hr
    exact readRow_writeRow r hmem.2
  rw [List.map_congr_left this, List.map_id]

/-- C3: one save/load cycle returns exactly the rows of `T` whose
supplier is non-blank (each row unchanged, its date-typed `vencimento`
serialized and re-parsed identically), and a second save/load cycle
changes nothing more. -/
theorem save_load_roundtrip (T : List Row) :
    carregar_dados (salvar_dados T) = remover_linhas_vazias T
    ∧ carregar_dados (salvar_dados (carregar_dados (salvar_dados T)))
        = carregar_dados (salvar_dados T) := by
  refine ⟨load_save_eq T, ?_⟩
  rw [load_save_eq, load_save_eq]
  unfold remover_linhas_vazias
  apply List.filter_eq_self.mpr
  intro r hr
  exact (List.mem_filter.mp hr).2

/-- A sample pending record (id 1). -/
def exemploPendente : Row :=
  ⟨1, some "Acme", "", "Boleto", 100, some 3, "Pendente"⟩

/-- A sample paid record (id 2). -/
def exemploPaga : Row :=
  ⟨2, some "Beta", "", "PIX", 50, some 4, "Paga"⟩

/-- C5: the displayed pending total is the sum of `valor` over exactly
the rows whose stored status is `"Pendente"` — the sort and the derived
display columns do not change it — and it is 0 on an empty table and on
a table with no pending rows. -/
theorem total_a_pagar_correct (df : List Row) :
    total_a_pagar df = ((df.filter fun r => r.status == "Pendente").map Row.valor).sum
    ∧ (df = [] → total_a_pagar df = 0)
    ∧ ((∀ r ∈ df, r.status ≠ "Pendente") → total_a_pagar df = 0) := by
  have hmain : total_a_pagar df
      = ((df.filter fun r => r.status == "Pendente").map Row.valor).sum := by
    by_cases hdf : df = []
    · subst hdf; rfl
    · have hperm : (sort_values_vencimento df).Perm df :=
        List.mergeSort_perm df vencimentoLE
    -- the sorted table is nonempty, so the `if not df.empty` branch is taken
      have hne : sort_values_vencimento df ≠ [] := by
        intro hc
        have hlen := hperm.length_eq
        rw [hc] at hlen
        exact hdf (List.eq_nil_of_length_eq_zero hlen.symm)
      unfold total_a_pagar df_exibicao
      rw [if_pos hdf, if_pos hne]
      exact ((hperm.filter _).map Row.valor).sum_eq
  refine ⟨hmain, ?_, ?_⟩
  · intro h
    rw [hmain, h]
    rfl
  · intro h
    rw [hmain]
    have hfil : df.filter (fun r => r.status == "Pendente") = [] :=
      List.filter_eq_nil_iff.mpr fun r hr => by
        simpa using h r hr
    rw [hfil]
    rfl

/-- Witness for C5: a table whose single record is paid has a zero
pending total. -/
theorem total_a_pagar_witness : total_a_pagar [exemploPaga] = 0 :=
  (total_a_pagar_correct [exemploPaga]).2.2 (by decide)

/-- C7: clicking delete with an id absent from the table leaves the
in-memory table unchanged, writes nothing to storage, and shows the
non-fatal not-found warning. -/
theorem conta_excluir_nao_encontrada (df : List Row) (i : Int)
    (h : i ∉ df.map Row.id) :
    conta_excluir_click df i = (df, none, UiMsg.warning "❌ Conta não encontrada.") := by
  unfold conta_excluir_click
  have hc : (df.map Row.id).contains i = false := by simpa using h
  rw [hc]
  rfl

/-- Witness for C7: deleting id 9 from a one-record table with id 1
changes nothing and warns. -/
theorem conta_excluir_nao_encontrada_witness :
    conta_excluir_click [exemploPendente] 9
      = ([exemploPendente], none, UiMsg.warning "❌ Conta não encontrada.") :=
  conta_excluir_nao_encontrada [exemploPendente] 9 (by decide)

/-- C10: clicking delete with an id present in the table keeps exactly
the rows with a different id (removing every row carrying the given id),
persists the filtered table, and reports success. -/
theorem conta_excluir_encontrada (df : List Row) (i : Int)
    (h : i ∈ df.map Row.id) :
    conta_excluir_click df i
      = (df.filter fun r => r.id != i,
         some (salvar_dados (df.filter fun r => r.id != i)),
         UiMsg.success "✅ Conta excluída com sucesso!")
    ∧ (∀ r ∈ (conta_excluir_click df i).1, r.id ≠ i)
    ∧ (∀ r ∈ df, r.id ≠ i → r ∈ (conta_excluir_click df i).1) := by
  have hc : (df.map Row.id).contains i = true := by simpa using h
  have heq : conta_excluir_click df i
      = (df.filter fun r => r.id != i,
         some (salvar_dados (df.filter fun r => r.id != i)),
         UiMsg.success "✅ Conta excluída com sucesso!") := by
    unfold conta_excluir_click
    rw [hc]
    rfl
  refine ⟨heq, ?_, ?_⟩
  · intro r hr
    rw [heq] at hr
    have := (List.mem_filter.mp hr).2
    simpa using this
  · intro r hr hne
    rw [heq]
    exact List.mem_filter.mpr ⟨hr, by simpa using hne⟩

/-- Witness for C10: deleting id 1 from a two-record table keeps exactly
the id-2 record. -/
theorem conta_excluir_encontrada_witness :
    (conta_excluir_click [exemploPendente, exemploPaga] 1).1 = [exemploPaga] := by
  have h := (conta_excluir_encontrada [exemploPendente, exemploPaga] 1 (by decide)).1
  rw [h]
  decide

/-- C8: submitting the new-account form with a blank (empty or
whitespace-only) supplier is rejected before any mutation: the table is
unchanged, nothing is written to storage, and a warning is shown. -/
theorem form_nova_conta_fornecedor_vazio (df : List Row)
    (fornecedor descricao tipo_documento : String) (valor : ℚ) (vencimento : Nat)
    (h : pyStrip fornecedor = "") :
    form_nova_conta_submit df fornecedor descricao tipo_documento valor vencimento
      = (df, none, UiMsg.warning "Informe o fornecedor.") := by
  unfold form_nova_conta_submit
  rw [if_pos h]

/-- Witness for C8: a whitespace-only supplier is rejected on a
one-record table. -/
theorem form_nova_conta_fornecedor_vazio_witness :
    form_nova_conta_submit [exemploPendente] "   " "obs" "Boleto" 10 5
      = ([exemploPendente], none, UiMsg.warning "Informe o fornecedor.") :=
  form_nova_conta_fornecedor_vazio [exemploPendente] "   " "obs" "Boleto" 10 5 (by decide)

/-- The running maximum of a fold is one of the inputs. -/
lemma foldl_max_mem (xs : List Int) : ∀ x : Int, xs.foldl max x ∈ x :: xs := by
  induction xs with
  | nil => intro x; simp
  | cons y ys ih =>
    intro x
    rw [List.foldl_cons]
    have hmem := ih (max x y)
    rcases List.mem_cons.mp hmem with h1 | h1
    · rw [h1]
      rcases max_choice x y with h | h <;> rw [h]
      · exact List.mem_cons_self _ _
      · exact List.mem_cons_of_mem _ (List.mem_cons_self _ _)
    · exact List.mem_cons_of_mem _ (List.mem_cons_of_mem _ h1)

/-- The running maximum of a fold bounds every input. -/
lemma le_foldl_max (xs : List Int) : ∀ x : Int, ∀ a ∈ x :: xs, a ≤ xs.foldl max x := by
  induction xs with
  | nil =>
    intro x a ha
    rw [List.mem_singleton] at ha
    simp [ha]
  | cons y ys ih =>
    intro x a ha
    rw [List.foldl_cons]
    rcases List.mem_cons.mp ha with rfl | h1
    · exact le_trans (le_max_left a y) (ih (max a y) (max a y) (List.mem_cons_self _ _))
    · rcases List.mem_cons.mp h1 with rfl | h2
      · exact le_trans (le_max_right x a) (ih (max x a) _ (List.mem_cons_self _ _))
      · exact ih (max x y) a (List.mem_cons_of_mem _ h2)

/-- C4, counterexample to "an id is never reused after a deletion": the
table holds only the record with id 1; deleting id 1 empties it, and the
very next create assigns id 1 again — an id a deleted record held. -/
theorem novo_id_reuse_counterexample :
    exemploPendente.id = 1
    ∧ (conta_excluir_click [exemploPendente] 1).1 = []
    ∧ ((form_nova_conta_submit (conta_excluir_click [exemploPendente] 1).1
        "Beta" "" "Boleto" 50 5).1.map Row.id) = [1] := by
  decide

/-- C4 as amended: creating on an empty table assigns id 1, and creating
on a non-empty table appends one record whose id is `max(existing ids)+1`
(strictly above every existing id, and the successor of an id present in
the table); ids can be reused after a deletion that removes the maximal
id. -/
theorem novo_id_assignment (df : List Row) (fornecedor descricao tipo_documento : String)
    (valor : ℚ) (vencimento : Nat) (hf : pyStrip fornecedor ≠ "") :
    ((form_nova_conta_submit df fornecedor descricao tipo_documento valor vencimento).1.map Row.id
        = df.map Row.id ++ [novo_id df])
    ∧ (df = [] → novo_id df = 1)
    ∧ (df ≠ [] →
        (∀ r ∈ df, r.id < novo_id df) ∧ ∃ r ∈ df, novo_id df = r.id + 1) := by
  refine ⟨?_, ?_, ?_⟩
  · unfold form_nova_conta_submit
    rw [if_neg hf]
    simp
  · intro h
    subst h
    rfl
  · intro h
    cases df with
    | nil => exact absurd rfl h
    | cons r0 rs =>
      have hmax : novo_id (r0 :: rs) = (rs.map Row.id).foldl max r0.id + 1 := by
        unfold novo_id
        rw [if_pos h]
        rfl
      constructor
      · intro r hr
        have hrid : r.id ∈ r0.id :: rs.map Row.id := List.mem_map_of_mem Row.id hr
        have hle := le_foldl_max (rs.map Row.id) r0.id r.id hrid
        omega
      · have hmem : (rs.map Row.id).foldl max r0.id ∈ (r0 :: rs).map Row.id :=
          foldl_max_mem (rs.map Row.id) r0.id
        obtain ⟨r, hr, hid⟩ := List.mem_map.mp hmem
        exact ⟨r, hr, by rw [hmax, hid]⟩

/-- Witness for C4 (amended): on a table holding only the id-2 record,
the created record gets id 3 = 2 + 1. -/
theorem novo_id_assignment_witness :
    (form_nova_conta_submit [exemploPaga] "Acme" "" "Boleto" 10 5).1.map Row.id = [2, 3]
    ∧ novo_id [exemploPaga] = exemploPaga.id + 1 := by
  have h := novo_id_assignment [exemploPaga] "Acme" "" "Boleto" 10 5 (by decide)
  constructor
  · rw [h.1]
    decide
  · obtain ⟨r, hr, hid⟩ := (h.2.2 (by decide)).2
    have hre : r = exemploPaga := by simpa using hr
    rw [hre] at hid
    exact hid

/-- A persisted row whose due-date cell is unparsable text. -/
def exemploMalformado : StoredRow :=
  ⟨3, "Acme", "", "Boleto", 7, "not-a-date", "Pendente"⟩

/-- C6: loading a persisted table never drops a record and never raises
(`carregar_dados` is total); a row whose due-date cell does not parse is
kept with its `vencimento` set to null, and when its stored status is
not `"Paga"` its derived status is `"Sem data"`. -/
theorem carga_data_malformada (stored : List StoredRow) (hoje : Nat) (sr : StoredRow) :
    (carregar_dados stored).length = stored.length
    ∧ (sr ∈ stored → readRow sr ∈ carregar_dados stored)
    ∧ (parseCell sr.vencimento = none →
        (readRow sr).vencimento = none
        ∧ (sr.status ≠ "Paga" → definir_status_atual hoje (readRow sr) = "Sem data")) := by
  refine ⟨List.length_map stored readRow, fun hmem => List.mem_map_of_mem readRow hmem,
    fun hp => ⟨hp, fun hs => ?_⟩⟩
  have hs' : (readRow sr).status ≠ "Paga" := hs
  unfold definir_status_atual
  rw [if_neg hs']
  simp [readRow, calcular_dias, hp]

/-- Witness for C6: the row with due-date text `"not-a-date"` is loaded
with a null date, stays in the table, and displays as `"Sem data"`. -/
theorem carga_data_malformada_witness :
    readRow exemploMalformado ∈ carregar_dados [exemploMalformado]
    ∧ (readRow exemploMalformado).vencimento = none
    ∧ definir_status_atual 100 (readRow exemploMalformado) = "Sem data" := by
  have h := carga_data_malformada [exemploMalformado] 100 exemploMalformado
  have hmal := h.2.2 (by decide)
  exact ⟨h.2.1 (by decide), hmal.1, hmal.2 (by decide)⟩

/-! ### Heap model for the save path

`pandas` frames are mutable; whether `salvar_dados` mutates its caller's
frame is a heap question.  Frames live in a heap (a list of frames, a
reference being an index; allocation appends).  Each line of the Python
save path is modelled by its effect on the heap: `df.copy()` and boolean
indexing `df[mask]` allocate fresh frames, the column assignment
`df_salvar["vencimento"] = ...` writes in place through its reference,
and `to_csv` only reads. -/

/-- A mutable `pandas` frame (its current value). -/
abbrev Frame := List Row

/-- The heap of live frames; a reference is an index into it. -/
abbrev Heap := List Frame

/-- Allocate a fresh frame, returning the new heap and the reference. -/
def alloc (h : Heap) (f : Frame) : Heap × Nat := (h ++ [f], h.length)

/-- Dereference (out-of-range reads give the empty frame; never used). -/
def readRef (h : Heap) (r : Nat) : Frame := (h[r]?).getD []

/-- Overwrite the frame behind a reference. -/
def writeRef (h : Heap) (r : Nat) (f : Frame) : Heap := h.set r f

/-- `remover_linhas_vazias` on the heap: `df = df.copy()` allocates a
copy, `df = df[mask]` allocates the filtered frame; the returned
reference is the local `df` at the `return`. -/
def remover_linhas_vazias_ref (h : Heap) (df : Nat) : Heap × Nat :=
  let hc := alloc h (readRef h df)
  let hm := alloc hc.1 ((readRef hc.1 hc.2).filter fornecedorPreenchido)
  (hm.1, hm.2)

/-- `salvar_dados` on the heap: filter into `df_salvar`, assign the
re-normalized `vencimento` column in place on `df_salvar`, then write
the CSV from it. -/
def salvar_dados_ref (h : Heap) (df : Nat) : Heap × List StoredRow :=
  let hr := remover_linhas_vazias_ref h df
  let h2 := writeRef hr.1 hr.2
      ((readRef hr.1 hr.2).map fun r => { r with vencimento := to_datetime_col r.vencimento })
  (h2, (readRef h2 hr.2).map writeRow)

/-- Reading below the old length is unaffected by allocations. -/
lemma readRef_append (h : Heap) (fs : List Frame) (r : Nat) (hr : r < h.length) :
    readRef (h ++ fs) r = readRef h r := by
  unfold readRef
  rw [List.getElem?_append_left hr]

/-- Reading a freshly allocated reference gives the allocated frame. -/
lemma readRef_concat (h : Heap) (f : Frame) : readRef (h ++ [f]) h.length = f := by
  unfold readRef
  rw [List.getElem?_concat_length]
  rfl

/-- Writing one reference does not change what another one reads. -/
lemma readRef_writeRef_ne (h : Heap) (i r : Nat) (f : Frame) (hne : i ≠ r) :
    readRef (writeRef h i f) r = readRef h r := by
  unfold readRef writeRef
  rw [List.getElem?_set_ne hne]

/-- Reading back a written reference gives the written frame. -/
lemma readRef_writeRef_eq (h : Heap) (i : Nat) (f : Frame) (hi : i < h.length) :
    readRef (writeRef h i f) i = f := by
  unfold readRef writeRef
  rw [List.getElem?_set_self hi]
  rfl

/-- The heap effect of `remover_linhas_vazias`: two fresh frames (the
copy and the filtered frame), the caller's frames untouched. -/
lemma remover_linhas_vazias_ref_spec (h : Heap) (df : Nat) :
    remover_linhas_vazias_ref h df
      = ((h ++ [readRef h df]) ++ [(readRef h df).filter fornecedorPreenchido], h.length + 1) := by
  unfold remover_linhas_vazias_ref alloc
  simp [readRef_concat]

/-- The heap effect of `salvar_dados`: the in-place column write lands
on the fresh filtered frame, and the CSV written is built from it. -/
lemma salvar_dados_ref_spec (h : Heap) (df : Nat) :
    salvar_dados_ref h df
      = (writeRef ((h ++ [readRef h df]) ++ [(readRef h df).filter fornecedorPreenchido]) (h.length + 1)
           (((readRef h df).filter fornecedorPreenchido).map
             fun r => { r with vencimento := to_datetime_col r.vencimento }),
         ((((readRef h df).filter fornecedorPreenchido).map
             fun r => { r with vencimento := to_datetime_col r.vencimento }).map writeRow)) := by
  have hflt : readRef ((h ++ [readRef h df]) ++ [(readRef h df).filter fornecedorPreenchido])
      (h.length + 1) = (readRef h df).filter fornecedorPreenchido := by
    have := readRef_concat (h ++ [readRef h df]) ((readRef h df).filter fornecedorPreenchido)
    simpa using this
  have hwrite : readRef
      (writeRef ((h ++ [readRef h df]) ++ [(readRef h df).filter fornecedorPreenchido]) (h.length + 1)
        (((readRef h df).filter fornecedorPreenchido).map
          fun r => { r with vencimento := to_datetime_col r.vencimento }))
      (h.length + 1)
      = ((readRef h df).filter fornecedorPreenchido).map
          fun r => { r with vencimento := to_datetime_col r.vencimento } := by
    apply readRef_writeRef_eq
    simp
  unfold salvar_dados_ref
  rw [remover_linhas_vazias_ref_spec]
  simp only [hflt, hwrite]

/-- C9: saving never mutates the caller's frame — after `salvar_dados`
the frame behind the caller's reference is unchanged — and the persisted
table is exactly the pure `salvar_dados` of that frame. -/
theorem salvar_dados_preserva_df (h : Heap) (df : Nat) (hdf : df < h.length) :
    readRef (salvar_dados_ref h df).1 df = readRef h df
    ∧ (salvar_dados_ref h df).2 = salvar_dados (readRef h df) := by
  rw [salvar_dados_ref_spec]
  constructor
  · show readRef (writeRef _ _ _) df = readRef h df
    rw [readRef_writeRef_ne _ _ _ _ (by omega)]
    rw [readRef_append _ _ _ (by simp; omega), readRef_append _ _ _ hdf]
  · rfl

/-- Witness for C9: on a one-frame heap holding a two-row table (one
blank supplier), saving leaves the caller's frame intact while the
persisted table has the blank row filtered out. -/
theorem salvar_dados_preserva_df_witness :
    readRef (salvar_dados_ref [[exemploPendente, ⟨7, some " ", "x", "PIX", 1, none, "Pendente"⟩]] 0).1 0
      = [exemploPendente, ⟨7, some " ", "x", "PIX", 1, none, "Pendente"⟩]
    ∧ (salvar_dados_ref [[exemploPendente, ⟨7, some " ", "x", "PIX", 1, none, "Pendente"⟩]] 0).2
      = salvar_dados [exemploPendente, ⟨7, some " ", "x", "PIX", 1, none, "Pendente"⟩] := by
  have h := salvar_dados_preserva_df
    [[exemploPendente, ⟨7, some " ", "x", "PIX", 1, none, "Pendente"⟩]] 0 (by decide)
  exact ⟨h.1, h.2⟩

/-- Witness for C2: a record due exactly today (0 remaining days) is
classified `"A vencer"`, not `"Vencida"`. -/
theorem current_status_nonpaga_witness :
    definir_status_atual 100
      { id := 1, fornecedor := some "Acme", descricao := "", tipo_documento := "Boleto",
        valor := 100, vencimento := some 100, status := "Pendente" } = "A vencer" := by
  have h := current_status_nonpaga 100
      { id := 1, fornecedor := some "Acme", descricao := "", tipo_documento := "Boleto",
        valor := 100, vencimento := some 100, status := "Pendente" } (by decide)
  exact (h.2 0 (by decide)).2.mpr (by decide)

end Contas
